import Mathlib

/-!
Verification development for the pdns-cli REST orchestration layer.

The Rust sources are embedded shallowly:
- DTO structs and enums (`src/pdns/*.rs`) become Lean structures and
  inductive types with the same field names.
- Pure helper functions (`canonicalize_name`, `conditionally_qualify_key`,
  `map_record_type`, the body providers of
  `src/rest_client/zone_resource_client.rs`, `NewZone::new`) become Lean
  functions.
- The generic request engine (`src/rest_client/pdns_resource_client.rs`)
  is embedded as a classification function over an abstract HTTP outcome
  (either a send failure or a `(status, body)` response); JSON decoding is
  an explicit function parameter returning `Except` (error = decode
  failure message).
- Command workflows (`src/commands/*.rs`) become functions from the
  outcomes of their oneshot request/response exchanges to a result plus a
  trace of the facade operations they started, mirroring the Rust match
  structure statement by statement.

Machine integers (`u32`, `u64`) are modelled as `Nat`: the programs only
copy and print them, no arithmetic overflows.  HTTP status codes
(`reqwest::StatusCode`) are modelled as `Nat`.
-/

namespace PdnsCli

/-! ## DTOs (src/pdns/struct_type.rs, server.rs, error.rs, zone.rs) -/

/-- `StructType` from src/pdns/struct_type.rs. -/
inductive StructType where
  | None
  | Server
  | Zone
deriving DecidableEq, Repr

/-- `DaemonType` from src/pdns/server.rs. -/
inductive DaemonType where
  | Recursor
  | Authoritative
deriving DecidableEq, Repr

/-- `Server` from src/pdns/server.rs. -/
structure Server where
  type_id : StructType
  id : String
  daemon_type : DaemonType
  version : String
  url : String
  config_url : String
  zones_url : String
deriving DecidableEq, Repr

/-- `Error` from src/pdns/error.rs: the server-error DTO decoded from the
body of a recognized-error response. -/
structure PdnsError where
  error : String
  errors : Option (List String)
deriving DecidableEq, Repr

/-- `ZoneKind` from src/pdns/zone.rs. -/
inductive ZoneKind where
  | Native
  | Master
  | Slave
deriving DecidableEq, Repr

/-- `RrsetType` from src/pdns/zone.rs. -/
inductive RrsetType where
  | A
  | Ptr
  | Aaaa
  | Ns
  | Soa
  | Cname
  | Srv
  | Txt
deriving DecidableEq, Repr

/-- `Changetype` from src/pdns/zone.rs. -/
inductive Changetype where
  | None
  | Replace
  | Delete
deriving DecidableEq, Repr

/-- `Record` from src/pdns/zone.rs. -/
structure Record where
  content : String
  disabled : Bool
deriving DecidableEq, Repr

/-- `Comment` from src/pdns/zone.rs. -/
structure Comment where
  content : String
  account : String
  modified_at : Nat
deriving DecidableEq, Repr

/-- `Rrset` from src/pdns/zone.rs (field order as in the struct
declaration; `Rrset::new` takes changetype before ttl). -/
structure Rrset where
  name : String
  type_id : RrsetType
  ttl : Option Nat
  changetype : Option Changetype
  records : List Record
  comments : List Comment
deriving DecidableEq, Repr

/-- `Rrsets` from src/pdns/zone.rs. -/
structure Rrsets where
  rrsets : List Rrset
deriving DecidableEq, Repr

/-- `Zone` from src/pdns/zone.rs. -/
structure Zone where
  id : String
  name : String
  type_id : Option StructType
  url : String
  kind : ZoneKind
  rrsets : List Rrset
  serial : Nat
  edited_serial : Nat
  masters : List String
  dnssec : Bool
  nsec3param : String
  nsec3narrow : Bool
  presigned : Option Bool
  soa_edit : String
  soa_edit_api : String
  api_rectify : Bool
  zone : Option String
  account : Option String
  nameservers : Option (List String)
  master_tsig_key_ids : List String
  slave_tsig_key_ids : List String
deriving DecidableEq, Repr

/-- `NewZone` from src/pdns/zone.rs. -/
structure NewZone where
  name : String
  type_id : StructType
  kind : ZoneKind
  rrsets : List Rrset
  masters : List String
  dnssec : Bool
  nsec3param : Option String
  nsec3narrow : Bool
  presigned : Bool
  nameservers : List String
  master_tsig_key_ids : Option (List String)
  slave_tsig_key_ids : Option (List String)
deriving DecidableEq, Repr

/-! ## Name canonicalization and record-key qualification
(src/rest_client/zone_resource_client.rs lines 365-393; the identical
`canonicalize_name` also appears in src/pdns/zone.rs lines 351-357). -/

/-- Rust `name.ends_with(".")`: true iff the final character of the
string is the separator `.`. -/
def ends_with_dot (name : String) : Bool :=
  name.data.getLast? == some '.'

/-- `canonicalize_name` from src/rest_client/zone_resource_client.rs
(and, identically, src/pdns/zone.rs): append a trailing `.` unless the
name already ends with one. -/
def canonicalize_name (name : String) : String :=
  if !(ends_with_dot name) then name ++ "." else name

/-- Contiguous-prefix test on character lists (needle first):
`leadsWith n h` is true iff `n` is a prefix of `h`. -/
def leadsWith : List Char → List Char → Bool
  | [], _ => true
  | _ :: _, [] => false
  | a :: as, b :: bs => a == b && leadsWith as bs

/-- Substring containment on character lists (needle first), scanning
every suffix of the haystack. -/
def containsChars (needle : List Char) : List Char → Bool
  | [] => leadsWith needle []
  | c :: rest => leadsWith needle (c :: rest) || containsChars needle rest

/-- Rust `hay.contains(needle)` on `str`: contiguous substring test. -/
def string_contains (hay needle : String) : Bool :=
  containsChars needle.data hay.data

/-- `conditionally_qualify_key` from
src/rest_client/zone_resource_client.rs: if the key already contains the
zone name, only canonicalize it; otherwise qualify it with the zone name
and canonicalize. -/
def conditionally_qualify_key (key zone_name : String) : String :=
  if string_contains key zone_name then
    canonicalize_name key
  else
    canonicalize_name (key ++ "." ++ zone_name)

/-- `map_record_type` from src/rest_client/zone_resource_client.rs. -/
def map_record_type (record_type : String) : Option RrsetType :=
  match record_type with
  | "A" => some RrsetType.A
  | "SOA" => some RrsetType.Soa
  | "NS" => some RrsetType.Ns
  | "PTR" => some RrsetType.Ptr
  | "TXT" => some RrsetType.Txt
  | "SRV" => some RrsetType.Srv
  | "CNAME" => some RrsetType.Cname
  | "AAAA" => some RrsetType.Aaaa
  | _ => none

/-! ## Zone facade request events and body providers
(src/rest_client/zone_resource_client.rs). -/

/-- `CreateZoneRequestEvent` from src/rest_client/zone_resource_client.rs. -/
structure CreateZoneRequestEvent where
  zone_name : String
  refresh : Nat
  retry : Nat
  expire : Nat
  neg_caching : Nat
  masters : List String
  nameservers : List String
  account : String
deriving DecidableEq, Repr

/-- `AddEntryRequestEvent` from src/rest_client/zone_resource_client.rs. -/
structure AddEntryRequestEvent where
  zone_name : String
  record_key : String
  record_type : String
  record_values : List String
  time_to_live : Nat
deriving DecidableEq, Repr

/-- `RemoveEntryRequestEvent` from src/rest_client/zone_resource_client.rs. -/
structure RemoveEntryRequestEvent where
  zone_name : String
  record_key : String
  record_type : String
deriving DecidableEq, Repr

/-- `NewZone::new` from src/pdns/zone.rs lines 153-192: if the
nameserver list is empty the zone is a `Slave` with empty rrsets and the
given masters, otherwise a `Native` zone with empty masters and the given
rrsets and nameservers; the name is canonicalized in both branches. -/
def NewZone.new (name : String) (rrsets : List Rrset) (masters : List String)
    (nameservers : List String) (dnssec : Bool) (nsec3param : Option String)
    (nsec3narrow : Bool) (presigned : Bool)
    (master_tsig_key_ids : Option (List String))
    (slave_tsig_key_ids : Option (List String)) : NewZone :=
  if nameservers.isEmpty then
    { name := canonicalize_name name
      type_id := StructType.Zone
      kind := ZoneKind.Slave
      rrsets := []
      masters := masters
      dnssec := dnssec
      nsec3param := nsec3param
      nsec3narrow := nsec3narrow
      presigned := presigned
      nameservers := []
      master_tsig_key_ids := master_tsig_key_ids
      slave_tsig_key_ids := slave_tsig_key_ids }
  else
    { name := canonicalize_name name
      type_id := StructType.Zone
      kind := ZoneKind.Native
      rrsets := rrsets
      masters := []
      dnssec := dnssec
      nsec3param := nsec3param
      nsec3narrow := nsec3narrow
      presigned := presigned
      nameservers := nameservers
      master_tsig_key_ids := master_tsig_key_ids
      slave_tsig_key_ids := slave_tsig_key_ids }

/-- The SOA record content string assembled inside
`create_zone_body_provider` (src/rest_client/zone_resource_client.rs
lines 306-319), Rust format string `"{} {}.{} {}01 {} {} {} {}"`.
The date stamp `serial` (chrono `Utc::now().format("%Y%m%d")` in the
source) is taken as an explicit parameter: the current time is an input
of the embedding. -/
def soa_record_content (serial : String) (request : CreateZoneRequestEvent) : String :=
  canonicalize_name request.zone_name ++ " " ++ request.account ++ "." ++
    canonicalize_name request.zone_name ++ " " ++ serial ++ "01 " ++
    toString request.refresh ++ " " ++ toString request.retry ++ " " ++
    toString request.expire ++ " " ++ toString request.neg_caching

/-- `create_zone_body_provider` from
src/rest_client/zone_resource_client.rs lines 292-326: canonicalize the
nameservers and masters, seed a single SOA `Rrset` (changetype `None`,
ttl = refresh) and hand everything to `NewZone::new` with dnssec = false,
nsec3param = None, nsec3narrow = false, presigned = false and no TSIG key
ids. -/
def create_zone_body_provider (serial : String) (request : CreateZoneRequestEvent) : NewZone :=
  let nameservers := request.nameservers.map canonicalize_name
  let masters := request.masters.map canonicalize_name
  let rrsets : List Rrset :=
    [{ name := canonicalize_name request.zone_name
       type_id := RrsetType.Soa
       ttl := some request.refresh
       changetype := none
       records := [{ content := soa_record_content serial request, disabled := false }]
       comments := [] }]
  NewZone.new request.zone_name rrsets masters nameservers
    false none false false none none

/-- `add_entry_body_provider` from
src/rest_client/zone_resource_client.rs lines 328-347: one `Rrset` named
by the conditionally qualified record key, with changetype `REPLACE`,
the requested ttl and one enabled `Record` per record value.  The
source calls `map_record_type(..).unwrap()`; the `none` case models the
panic of that unwrap on an unknown record type. -/
def add_entry_body_provider (request : AddEntryRequestEvent) : Option Rrsets :=
  let records := request.record_values.map (fun v => { content := v, disabled := false : Record })
  match map_record_type request.record_type with
  | some t =>
      some { rrsets := [{ name := conditionally_qualify_key request.record_key request.zone_name
                          type_id := t
                          ttl := some request.time_to_live
                          changetype := some Changetype.Replace
                          records := records
                          comments := [] }] }
  | none => none

/-- `remove_entry_body_provider` from
src/rest_client/zone_resource_client.rs lines 349-363: one `Rrset` named
by the conditionally qualified record key, changetype `DELETE`, no ttl,
no records.  As for add-entry, `none` models the `unwrap` panic on an
unknown record type. -/
def remove_entry_body_provider (request : RemoveEntryRequestEvent) : Option Rrsets :=
  match map_record_type request.record_type with
  | some t =>
      some { rrsets := [{ name := conditionally_qualify_key request.record_key request.zone_name
                          type_id := t
                          ttl := none
                          changetype := some Changetype.Delete
                          records := []
                          comments := [] }] }
  | none => none

/-! ## Error taxonomy (src/rest_client/errors.rs).
`RestClientError` is a single-field wrapper around its kind; the
embedding works with the kind directly. -/

/-- `RestClientErrorKind` from src/rest_client/errors.rs.
`TokioRuntimeError` is the spec's ChannelFailure, `ReqwestRuntimeError`
the spec's Transport error, `ClientError` the unclassified client error
and `PowerDnsServerError` the recognized Domain error. -/
inductive RestClientErrorKind where
  | UnspecifiedError (message : Option String)
  | TokioRuntimeError (tokio_error : String)
  | ReqwestRuntimeError (reqwest_error : String)
  | ClientError (status_code : Nat)
  | PowerDnsServerError (status_code : Nat) (server_error : PdnsError)
deriving DecidableEq, Repr

/-- Discriminator: is this error kind an `UnspecifiedError`? -/
def isUnspecifiedError : RestClientErrorKind → Bool
  | RestClientErrorKind.UnspecifiedError _ => true
  | _ => false

/-- Discriminator: is this error kind a recognized Domain error with
status code 404 (the branch tested by the workflows via
`PowerDnsServerError { status_code, .. } if status_code == NOT_FOUND`)? -/
def isNotFoundDomainError : RestClientErrorKind → Bool
  | RestClientErrorKind.PowerDnsServerError status_code _ => status_code == 404
  | _ => false

/-! ## Generic request engine (src/rest_client/pdns_resource_client.rs). -/

/-- Outcome of `reqwest` sending one HTTP request: either the send/
connect failed before a status was available, or a response with a
status code and a body arrived. -/
inductive HttpResult where
  | failure (message : String)
  | response (status : Nat) (body : String)
deriving DecidableEq, Repr

/-- `is_success` from src/rest_client/pdns_resource_client.rs lines
239-246: OK, CREATED, NO_CONTENT. -/
def is_success (status_code : Nat) : Bool :=
  status_code == 200 || status_code == 201 || status_code == 204

/-- `is_known_error` from src/rest_client/pdns_resource_client.rs lines
229-237: BAD_REQUEST, NOT_FOUND, UNPROCESSABLE_ENTITY,
INTERNAL_SERVER_ERROR. -/
def is_known_error (status_code : Nat) : Bool :=
  status_code == 400 || status_code == 404 || status_code == 422 || status_code == 500

/-- Classification core of `PowerDnsRestClient::handle_get_request`
(src/rest_client/pdns_resource_client.rs lines 44-82).  `decode_payload`
models `rest_response.json::<O>()`, `decode_server_error` models
`rest_response.json::<Error>()`; a decode `Except.error` carries the
reqwest error message.  The guard order mirrors the Rust match:
success first, then known error, then any other response, then a send
error. -/
def handle_get_request {O : Type} (decode_payload : String → Except String O)
    (decode_server_error : String → Except String PdnsError)
    (http : HttpResult) : Except RestClientErrorKind O :=
  match http with
  | HttpResult.response status body =>
      if is_success status then
        match decode_payload body with
        | Except.ok server_response => Except.ok server_response
        | Except.error rest_err => Except.error (RestClientErrorKind.ReqwestRuntimeError rest_err)
      else if is_known_error status then
        match decode_server_error body with
        | Except.ok server_response =>
            Except.error (RestClientErrorKind.PowerDnsServerError status server_response)
        | Except.error rest_err => Except.error (RestClientErrorKind.ReqwestRuntimeError rest_err)
      else
        Except.error (RestClientErrorKind.ClientError status)
  | HttpResult.failure rest_err =>
      Except.error (RestClientErrorKind.ReqwestRuntimeError rest_err)

/-- Classification core of `PowerDnsRestClient::handle_post_request`
(src/rest_client/pdns_resource_client.rs lines 84-128): identical to the
GET classification; the serialized payload accompanies the request but
does not influence classification. -/
def handle_post_request {O T : Type} (decode_payload : String → Except String O)
    (decode_server_error : String → Except String PdnsError)
    (_payload : T) (http : HttpResult) : Except RestClientErrorKind O :=
  match http with
  | HttpResult.response status body =>
      if is_success status then
        match decode_payload body with
        | Except.ok server_response => Except.ok server_response
        | Except.error rest_err => Except.error (RestClientErrorKind.ReqwestRuntimeError rest_err)
      else if is_known_error status then
        match decode_server_error body with
        | Except.ok server_response =>
            Except.error (RestClientErrorKind.PowerDnsServerError status server_response)
        | Except.error rest_err => Except.error (RestClientErrorKind.ReqwestRuntimeError rest_err)
      else
        Except.error (RestClientErrorKind.ClientError status)
  | HttpResult.failure rest_err =>
      Except.error (RestClientErrorKind.ReqwestRuntimeError rest_err)

/-- Classification core of `PowerDnsRestClient::handle_delete_request`
(src/rest_client/pdns_resource_client.rs lines 130-165): success is unit,
no payload decode on success. -/
def handle_delete_request (decode_server_error : String → Except String PdnsError)
    (http : HttpResult) : Except RestClientErrorKind Unit :=
  match http with
  | HttpResult.response status body =>
      if is_success status then
        Except.ok ()
      else if is_known_error status then
        match decode_server_error body with
        | Except.ok server_response =>
            Except.error (RestClientErrorKind.PowerDnsServerError status server_response)
        | Except.error rest_err => Except.error (RestClientErrorKind.ReqwestRuntimeError rest_err)
      else
        Except.error (RestClientErrorKind.ClientError status)
  | HttpResult.failure rest_err =>
      Except.error (RestClientErrorKind.ReqwestRuntimeError rest_err)

/-- Classification core of `PowerDnsRestClient::handle_patch_request`
(src/rest_client/pdns_resource_client.rs lines 167-208): success is
unit; the serialized payload accompanies the request but does not
influence classification. -/
def handle_patch_request {T : Type} (decode_server_error : String → Except String PdnsError)
    (_payload : T) (http : HttpResult) : Except RestClientErrorKind Unit :=
  match http with
  | HttpResult.response status body =>
      if is_success status then
        Except.ok ()
      else if is_known_error status then
        match decode_server_error body with
        | Except.ok server_response =>
            Except.error (RestClientErrorKind.PowerDnsServerError status server_response)
        | Except.error rest_err => Except.error (RestClientErrorKind.ReqwestRuntimeError rest_err)
      else
        Except.error (RestClientErrorKind.ClientError status)
  | HttpResult.failure rest_err =>
      Except.error (RestClientErrorKind.ReqwestRuntimeError rest_err)

/-! ## Server resource client (src/rest_client/server_resource_client.rs). -/

/-- Classification core of `handle_request_event` from
src/rest_client/server_resource_client.rs lines 89-112, the task serving
the Server.query GET to `api/v1/servers/localhost`.  Unlike the generic
engine it recognizes only `StatusCode::OK` as success and has no
known-error branch: every non-200 status becomes a `ClientError`. -/
def handle_request_event (decode_server : String → Except String Server)
    (http : HttpResult) : Except RestClientErrorKind Server :=
  match http with
  | HttpResult.response status body =>
      if status == 200 then
        match decode_server body with
        | Except.ok server_response => Except.ok server_response
        | Except.error rest_err => Except.error (RestClientErrorKind.ReqwestRuntimeError rest_err)
      else
        Except.error (RestClientErrorKind.ClientError status)
  | HttpResult.failure rest_err =>
      Except.error (RestClientErrorKind.ReqwestRuntimeError rest_err)

/-! ## Command parameters (src/app_config/cmd_line_parser.rs).

The enum in src/app_config/cmd_line_parser.rs lines 61-82 has the
variants AddZone, RemoveZone, QueryZone and AddEntry; the
`RemoveEntry` variant matched by src/commands/remove_entry_command.rs
line 101 is added here because that command file destructures it (the
snapshot mixes two revisions of the enum). -/

/-- `CommandParameters` from src/app_config/cmd_line_parser.rs, plus the
`RemoveEntry` variant required by src/commands/remove_entry_command.rs. -/
inductive CommandParameters where
  | AddZone (refresh : Nat) (retry : Nat) (expire : Nat) (neg_caching : Nat)
      (masters : List String) (nameservers : List String) (account : String)
  | RemoveZone
  | QueryZone (output_file : Option String)
  | AddEntry (record_key : String) (record_value : List String)
      (record_type : String) (time_to_live : Nat)
  | RemoveEntry (record_key : String) (record_type : String)
deriving DecidableEq, Repr

/-! ## Workflow embedding (src/commands/*.rs).

Each facade operation in the source is a oneshot request channel plus a
oneshot response channel consumed by a spawned engine task.  From the
workflow's viewpoint such an exchange has three outcomes, matched
verbatim by the command code:
- the request send fails (`request_tx.send(..) = Err(_)`) →
  `RestClientError::on_unspecified_error()`;
- the response await fails (`response_rx.await = Err(e)`) →
  `RestClientError::on_tokio_runtime_error(e)`;
- a response is delivered carrying the engine result.

A workflow run is therefore a function of its exchanges' outcomes.  Each
function also returns the trace of facade operations it started, in
order, so that call-sequencing claims can be stated. -/

/-- Outcome of one oneshot request/response exchange. -/
inductive ExchangeOutcome (α : Type) where
  | sendFailed
  | recvFailed (message : String)
  | delivered (response : Except RestClientErrorKind α)

/-- A facade operation started by a workflow.  The arguments record
exactly what the command passes to the request-event constructor:
`addEntry` carries only the zone name because
src/commands/add_entry_command.rs line 94 calls
`AddEntryRequestEvent::new(&self.zone_name)` with no further
arguments. -/
inductive FacadeCall where
  | serverQuery
  | zoneQuery (zone_name : String)
  | zoneCreate (request : CreateZoneRequestEvent)
  | zoneRemove (zone_name : String)
  | addEntry (zone_name : String)
  | removeEntry (zone_name : String) (record_key : String) (record_type : String)
deriving DecidableEq, Repr

/-- Discriminator: is this facade call a Zone.create? -/
def isCreateCall : FacadeCall → Bool
  | FacadeCall.zoneCreate _ => true
  | _ => false

/-- Discriminator: is this facade call a zone-level call (anything other
than the Server.query gate)? -/
def isZoneLevelCall : FacadeCall → Bool
  | FacadeCall.serverQuery => false
  | _ => true

/-- A workflow step result: the command outcome plus the ordered trace
of facade operations started. -/
abbrev StepResult := Except RestClientErrorKind Unit × List FacadeCall

/-- `AddZoneCommand` fields (src/commands/add_zone_command.rs). -/
structure AddZoneCommand where
  base_uri : String
  api_key : String
  zone_name : String
deriving DecidableEq, Repr

/-- `AddZoneCommand::execute_create_zone`
(src/commands/add_zone_command.rs lines 63-88): start Zone.create and
surface its result (success payload discarded). -/
def addZone_execute_create_zone (cmd : AddZoneCommand)
    (refresh retry expire neg_caching : Nat) (masters nameservers : List String)
    (account : String) (createExchange : ExchangeOutcome Zone) : StepResult :=
  let call := FacadeCall.zoneCreate
    { zone_name := cmd.zone_name, refresh := refresh, retry := retry,
      expire := expire, neg_caching := neg_caching, masters := masters,
      nameservers := nameservers, account := account }
  match createExchange with
  | ExchangeOutcome.sendFailed =>
      (Except.error (RestClientErrorKind.UnspecifiedError none), [call])
  | ExchangeOutcome.recvFailed message =>
      (Except.error (RestClientErrorKind.TokioRuntimeError message), [call])
  | ExchangeOutcome.delivered (Except.ok _zone) => (Except.ok (), [call])
  | ExchangeOutcome.delivered (Except.error e) => (Except.error e, [call])

/-- `AddZoneCommand::execute_get_zone`
(src/commands/add_zone_command.rs lines 30-61): query the zone; success
is a no-op, a `PowerDnsServerError` with status 404 falls through to
`execute_create_zone`, every other error is surfaced unchanged. -/
def addZone_execute_get_zone (cmd : AddZoneCommand)
    (refresh retry expire neg_caching : Nat) (masters nameservers : List String)
    (account : String) (zoneQueryExchange : ExchangeOutcome Zone)
    (createExchange : ExchangeOutcome Zone) : StepResult :=
  match zoneQueryExchange with
  | ExchangeOutcome.sendFailed =>
      (Except.error (RestClientErrorKind.UnspecifiedError none), [FacadeCall.zoneQuery cmd.zone_name])
  | ExchangeOutcome.recvFailed message =>
      (Except.error (RestClientErrorKind.TokioRuntimeError message), [FacadeCall.zoneQuery cmd.zone_name])
  | ExchangeOutcome.delivered (Except.ok _zone) =>
      (Except.ok (), [FacadeCall.zoneQuery cmd.zone_name])
  | ExchangeOutcome.delivered (Except.error e) =>
      match e with
      | RestClientErrorKind.PowerDnsServerError status_code server_error =>
          if status_code = 404 then
            let r := addZone_execute_create_zone cmd refresh retry expire neg_caching
              masters nameservers account createExchange
            (r.1, FacadeCall.zoneQuery cmd.zone_name :: r.2)
          else
            (Except.error (RestClientErrorKind.PowerDnsServerError status_code server_error),
             [FacadeCall.zoneQuery cmd.zone_name])
      | _ => (Except.error e, [FacadeCall.zoneQuery cmd.zone_name])

/-- `AddZoneCommand::execute_command`
(src/commands/add_zone_command.rs lines 93-127): match the AddZone
parameters, run the Server.query gate, and on an Authoritative server
continue with `execute_get_zone`.  A delivered non-Authoritative server
gives `on_unspecified_error()`; a delivered error is surfaced
unchanged (`Err(error.clone())`). -/
def executeAddZoneCommand (cmd : AddZoneCommand)
    (serverExchange : ExchangeOutcome Server)
    (zoneQueryExchange : ExchangeOutcome Zone)
    (createExchange : ExchangeOutcome Zone)
    (params : CommandParameters) : StepResult :=
  match params with
  | CommandParameters.AddZone refresh retry expire neg_caching masters nameservers account =>
      (match serverExchange with
       | ExchangeOutcome.sendFailed =>
           (Except.error (RestClientErrorKind.UnspecifiedError none), [FacadeCall.serverQuery])
       | ExchangeOutcome.recvFailed message =>
           (Except.error (RestClientErrorKind.TokioRuntimeError message), [FacadeCall.serverQuery])
       | ExchangeOutcome.delivered (Except.ok server) =>
           if server.daemon_type = DaemonType.Authoritative then
             let r := addZone_execute_get_zone cmd refresh retry expire neg_caching
               masters nameservers account zoneQueryExchange createExchange
             (r.1, FacadeCall.serverQuery :: r.2)
           else
             (Except.error (RestClientErrorKind.UnspecifiedError none), [FacadeCall.serverQuery])
       | ExchangeOutcome.delivered (Except.error e) =>
           (Except.error e, [FacadeCall.serverQuery]))
  | _ => (Except.error (RestClientErrorKind.UnspecifiedError none), [])

/-- `AddEntryCommand` fields (src/commands/add_entry_command.rs). -/
structure AddEntryCommand where
  base_uri : String
  api_key : String
  zone_name : String
deriving DecidableEq, Repr

/-- `AddEntryCommand::execute_add_entry`
(src/commands/add_entry_command.rs lines 87-108): start the add-entry
PATCH and surface its result.  The source constructs the request event
as `AddEntryRequestEvent::new(&self.zone_name)`, passing only the zone
name, which the trace records faithfully. -/
def addEntry_execute_add_entry (cmd : AddEntryCommand)
    (addEntryExchange : ExchangeOutcome Unit) : StepResult :=
  match addEntryExchange with
  | ExchangeOutcome.sendFailed =>
      (Except.error (RestClientErrorKind.UnspecifiedError none), [FacadeCall.addEntry cmd.zone_name])
  | ExchangeOutcome.recvFailed message =>
      (Except.error (RestClientErrorKind.TokioRuntimeError message), [FacadeCall.addEntry cmd.zone_name])
  | ExchangeOutcome.delivered (Except.ok ()) =>
      (Except.ok (), [FacadeCall.addEntry cmd.zone_name])
  | ExchangeOutcome.delivered (Except.error e) =>
      (Except.error e, [FacadeCall.addEntry cmd.zone_name])

/-- `AddEntryCommand::execute_get_zone`
(src/commands/add_entry_command.rs lines 44-85): query the zone.  On
success, scan the zone's rrsets for one whose name equals the record
key: if found, fail with `Unspecified("Record already exists: <key>")`
(the source writes the message with a `fmt!` macro, embedded here as the
evident string concatenation), otherwise fall through to
`execute_add_entry`.  A 404 Domain error succeeds as a no-op; every
other error is surfaced unchanged. -/
def addEntry_execute_get_zone (cmd : AddEntryCommand)
    (record_key : String)
    (zoneQueryExchange : ExchangeOutcome Zone)
    (addEntryExchange : ExchangeOutcome Unit) : StepResult :=
  match zoneQueryExchange with
  | ExchangeOutcome.sendFailed =>
      (Except.error (RestClientErrorKind.UnspecifiedError none), [FacadeCall.zoneQuery cmd.zone_name])
  | ExchangeOutcome.recvFailed message =>
      (Except.error (RestClientErrorKind.TokioRuntimeError message), [FacadeCall.zoneQuery cmd.zone_name])
  | ExchangeOutcome.delivered (Except.ok zone) =>
      if zone.rrsets.any (fun rrset => rrset.name == record_key) then
        (Except.error (RestClientErrorKind.UnspecifiedError
            (some ("Record already exists: " ++ record_key))),
         [FacadeCall.zoneQuery cmd.zone_name])
      else
        let r := addEntry_execute_add_entry cmd addEntryExchange
        (r.1, FacadeCall.zoneQuery cmd.zone_name :: r.2)
  | ExchangeOutcome.delivered (Except.error e) =>
      match e with
      | RestClientErrorKind.PowerDnsServerError status_code server_error =>
          if status_code = 404 then
            (Except.ok (), [FacadeCall.zoneQuery cmd.zone_name])
          else
            (Except.error (RestClientErrorKind.PowerDnsServerError status_code server_error),
             [FacadeCall.zoneQuery cmd.zone_name])
      | _ => (Except.error e, [FacadeCall.zoneQuery cmd.zone_name])

/-- `AddEntryCommand::execute_command`
(src/commands/add_entry_command.rs lines 113-143): match the AddEntry
parameters, run the Server.query gate, and on an Authoritative server
continue with `execute_get_zone`. -/
def executeAddEntryCommand (cmd : AddEntryCommand)
    (serverExchange : ExchangeOutcome Server)
    (zoneQueryExchange : ExchangeOutcome Zone)
    (addEntryExchange : ExchangeOutcome Unit)
    (params : CommandParameters) : StepResult :=
  match params with
  | CommandParameters.AddEntry record_key _record_value _record_type _time_to_live =>
      (match serverExchange with
       | ExchangeOutcome.sendFailed =>
           (Except.error (RestClientErrorKind.UnspecifiedError none), [FacadeCall.serverQuery])
       | ExchangeOutcome.recvFailed message =>
           (Except.error (RestClientErrorKind.TokioRuntimeError message), [FacadeCall.serverQuery])
       | ExchangeOutcome.delivered (Except.ok server) =>
           if server.daemon_type = DaemonType.Authoritative then
             let r := addEntry_execute_get_zone cmd record_key zoneQueryExchange addEntryExchange
             (r.1, FacadeCall.serverQuery :: r.2)
           else
             (Except.error (RestClientErrorKind.UnspecifiedError none), [FacadeCall.serverQuery])
       | ExchangeOutcome.delivered (Except.error e) =>
           (Except.error e, [FacadeCall.serverQuery]))
  | _ => (Except.error (RestClientErrorKind.UnspecifiedError none), [])

/-- `RemoveEntryCommand` fields (src/commands/remove_entry_command.rs). -/
structure RemoveEntryCommand where
  base_uri : String
  api_key : String
  zone_name : String
deriving DecidableEq, Repr

/-- `RemoveEntryCommand::execute_remove_entry`
(src/commands/remove_entry_command.rs lines 74-95): start the
remove-entry PATCH with `(zone_name, record_key, record_type)` and
surface its result. -/
def removeEntry_execute_remove_entry (cmd : RemoveEntryCommand)
    (record_key record_type : String)
    (removeEntryExchange : ExchangeOutcome Unit) : StepResult :=
  let call := FacadeCall.removeEntry cmd.zone_name record_key record_type
  match removeEntryExchange with
  | ExchangeOutcome.sendFailed =>
      (Except.error (RestClientErrorKind.UnspecifiedError none), [call])
  | ExchangeOutcome.recvFailed message =>
      (Except.error (RestClientErrorKind.TokioRuntimeError message), [call])
  | ExchangeOutcome.delivered (Except.ok ()) => (Except.ok (), [call])
  | ExchangeOutcome.delivered (Except.error e) => (Except.error e, [call])

/-- `RemoveEntryCommand::execute_get_zone`
(src/commands/remove_entry_command.rs lines 44-72): query the zone; on
success fall through to `execute_remove_entry` (no existence scan here,
unlike add-entry); a 404 Domain error succeeds as a no-op; every other
error is surfaced unchanged. -/
def removeEntry_execute_get_zone (cmd : RemoveEntryCommand)
    (record_key record_type : String)
    (zoneQueryExchange : ExchangeOutcome Zone)
    (removeEntryExchange : ExchangeOutcome Unit) : StepResult :=
  match zoneQueryExchange with
  | ExchangeOutcome.sendFailed =>
      (Except.error (RestClientErrorKind.UnspecifiedError none), [FacadeCall.zoneQuery cmd.zone_name])
  | ExchangeOutcome.recvFailed message =>
      (Except.error (RestClientErrorKind.TokioRuntimeError message), [FacadeCall.zoneQuery cmd.zone_name])
  | ExchangeOutcome.delivered (Except.ok _zone) =>
      let r := removeEntry_execute_remove_entry cmd record_key record_type removeEntryExchange
      (r.1, FacadeCall.zoneQuery cmd.zone_name :: r.2)
  | ExchangeOutcome.delivered (Except.error e) =>
      match e with
      | RestClientErrorKind.PowerDnsServerError status_code server_error =>
          if status_code = 404 then
            (Except.ok (), [FacadeCall.zoneQuery cmd.zone_name])
          else
            (Except.error (RestClientErrorKind.PowerDnsServerError status_code server_error),
             [FacadeCall.zoneQuery cmd.zone_name])
      | _ => (Except.error e, [FacadeCall.zoneQuery cmd.zone_name])

/-- `RemoveEntryCommand::execute_command`
(src/commands/remove_entry_command.rs lines 100-130): match the
RemoveEntry parameters, run the Server.query gate, and on an
Authoritative server continue with `execute_get_zone`.  The parameter
mismatch arm returns `Unspecified("command parameter mismatch")`. -/
def executeRemoveEntryCommand (cmd : RemoveEntryCommand)
    (serverExchange : ExchangeOutcome Server)
    (zoneQueryExchange : ExchangeOutcome Zone)
    (removeEntryExchange : ExchangeOutcome Unit)
    (params : CommandParameters) : StepResult :=
  match params with
  | CommandParameters.RemoveEntry record_key record_type =>
      (match serverExchange with
       | ExchangeOutcome.sendFailed =>
           (Except.error (RestClientErrorKind.UnspecifiedError none), [FacadeCall.serverQuery])
       | ExchangeOutcome.recvFailed message =>
           (Except.error (RestClientErrorKind.TokioRuntimeError message), [FacadeCall.serverQuery])
       | ExchangeOutcome.delivered (Except.ok server) =>
           if server.daemon_type = DaemonType.Authoritative then
             let r := removeEntry_execute_get_zone cmd record_key record_type
               zoneQueryExchange removeEntryExchange
             (r.1, FacadeCall.serverQuery :: r.2)
           else
             (Except.error (RestClientErrorKind.UnspecifiedError none), [FacadeCall.serverQuery])
       | ExchangeOutcome.delivered (Except.error e) =>
           (Except.error e, [FacadeCall.serverQuery]))
  | _ => (Except.error (RestClientErrorKind.UnspecifiedError
           (some "command parameter mismatch")), [])

/-- `RemoveZoneCommand` fields (src/commands/remove_zone_command.rs). -/
structure RemoveZoneCommand where
  base_uri : String
  api_key : String
  zone_name : String
deriving DecidableEq, Repr

/-- `RemoveZoneCommand::execute_command`
(src/commands/remove_zone_command.rs lines 39-47), embedded verbatim:
the body matches `CommandParameters::QueryZone { }` (and logs
"Executing command query-zone"), returns `Ok(())` without starting any
facade operation, and returns `on_unspecified_error()` for every other
parameter variant — including the `RemoveZone {}` parameters that
command dispatch (src/commands/command_handler.rs line 41 together with
src/app_config/cmd_line_parser.rs lines 129-134) actually passes to it.
No resource client is constructed, so the trace is always empty. -/
def executeRemoveZoneCommand (_cmd : RemoveZoneCommand)
    (params : CommandParameters) : StepResult :=
  match params with
  | CommandParameters.QueryZone _ => (Except.ok (), [])
  | _ => (Except.error (RestClientErrorKind.UnspecifiedError none), [])

/-! ## Concrete fixtures used by witnesses and counterexamples. -/

/-- A concrete Authoritative `Server` value. -/
def server0 : Server :=
  { type_id := StructType.Server, id := "localhost",
    daemon_type := DaemonType.Authoritative, version := "1.0.0",
    url := "/api/v1/servers/localhost",
    config_url := "/api/v1/servers/localhost/config",
    zones_url := "/api/v1/servers/localhost/zones" }

/-- A concrete Recursor `Server` value. -/
def recursor0 : Server :=
  { server0 with daemon_type := DaemonType.Recursor }

/-- A concrete `Rrset` for the name `www.example.com.`. -/
def rrset0 : Rrset :=
  { name := "www.example.com.", type_id := RrsetType.A, ttl := some 3600,
    changetype := none,
    records := [{ content := "192.0.2.1", disabled := false }],
    comments := [] }

/-- A concrete `Zone` for `example.com.` containing `rrset0`. -/
def zone0 : Zone :=
  { id := "example.com.", name := "example.com.", type_id := some StructType.Zone,
    url := "/api/v1/servers/localhost/zones/example.com.", kind := ZoneKind.Native,
    rrsets := [rrset0], serial := 2021100501, edited_serial := 2021100501,
    masters := [], dnssec := false, nsec3param := "", nsec3narrow := false,
    presigned := some false, soa_edit := "", soa_edit_api := "",
    api_rectify := false, zone := none, account := some "root",
    nameservers := some [], master_tsig_key_ids := [], slave_tsig_key_ids := [] }

/-- A concrete server-error DTO. -/
def pdnsError0 : PdnsError := { error := "Not Found", errors := none }

/-! ## Helper lemmas. -/

/-- Strings with equal character data are equal. -/
theorem string_data_inj {a b : String} (h : a.data = b.data) : a = b := by
  cases a
  cases b
  exact congrArg String.mk h

/-- Character data of an appended string. -/
theorem string_data_append (a b : String) : (a ++ b).data = a.data ++ b.data := rfl

/-- Appending the separator makes `ends_with_dot` true. -/
theorem ends_with_dot_append_dot (name : String) : ends_with_dot (name ++ ".") = true := by
  simp [ends_with_dot, string_data_append]

/-! ## Claims. -/

/-- C8: name canonicalization is idempotent: a name not ending in the
separator gets exactly one separator appended (nothing else changes), a
name already ending in the separator is returned identically, and hence
`canonicalize_name` is idempotent on every name. -/
theorem canonicalize_name_idempotent (name : String) :
    (ends_with_dot name = false → canonicalize_name name = name ++ ".") ∧
    (ends_with_dot name = true → canonicalize_name name = name) ∧
    canonicalize_name (canonicalize_name name) = canonicalize_name name := by
  refine ⟨fun h => by simp [canonicalize_name, h], fun h => by simp [canonicalize_name, h], ?_⟩
  by_cases h : ends_with_dot name = true
  · simp [canonicalize_name, h]
  · have h' : ends_with_dot name = false := by simpa using h
    simp [canonicalize_name, h', ends_with_dot_append_dot]

/-- Witness for C8 at the concrete names `example.com` and `example.com.`. -/
theorem canonicalize_name_idempotent_witness :
    (ends_with_dot "example.com" = false ∧ canonicalize_name "example.com" = "example.com" ++ ".") ∧
    (ends_with_dot "example.com." = true ∧ canonicalize_name "example.com." = "example.com.") :=
  ⟨⟨by decide, (canonicalize_name_idempotent "example.com").1 (by decide)⟩,
   ⟨by decide, (canonicalize_name_idempotent "example.com.").2.1 (by decide)⟩⟩

/-- C7: record-key qualification: a key already containing the zone name
is only canonicalized, any other key is qualified as `key ++ "." ++ zone`
and canonicalized; both worked examples hold, and the qualified key is
the `Rrset` name carried by the add-entry and remove-entry PATCH
bodies. -/
theorem conditionally_qualify_key_spec :
    (∀ key zone_name : String,
       (string_contains key zone_name = true →
          conditionally_qualify_key key zone_name = canonicalize_name key) ∧
       (string_contains key zone_name = false →
          conditionally_qualify_key key zone_name =
            canonicalize_name (key ++ "." ++ zone_name))) ∧
    conditionally_qualify_key "www" "example.com" = "www.example.com." ∧
    conditionally_qualify_key "www.example.com" "example.com" = "www.example.com." ∧
    (∀ (request : AddEntryRequestEvent) (body : Rrsets),
       add_entry_body_provider request = some body →
       body.rrsets.map Rrset.name =
         [conditionally_qualify_key request.record_key request.zone_name]) ∧
    (∀ (request : RemoveEntryRequestEvent) (body : Rrsets),
       remove_entry_body_provider request = some body →
       body.rrsets.map Rrset.name =
         [conditionally_qualify_key request.record_key request.zone_name]) := by
  refine ⟨?_, by decide, by decide, ?_, ?_⟩
  · intro key zone_name
    exact ⟨fun h => by simp [conditionally_qualify_key, h],
           fun h => by simp [conditionally_qualify_key, h]⟩
  · intro request body h
    simp only [add_entry_body_provider] at h
    split at h
    · cases h
      simp
    · cases h
  · intro request body h
    simp only [remove_entry_body_provider] at h
    split at h
    · cases h
      simp
    · cases h

/-- Witness for C7 at the concrete key `www` and zone `example.com` and
a concrete add-entry request. -/
theorem conditionally_qualify_key_spec_witness :
    (string_contains "www" "example.com" = false ∧
     conditionally_qualify_key "www" "example.com" =
       canonicalize_name ("www" ++ "." ++ "example.com")) ∧
    (add_entry_body_provider
        { zone_name := "example.com", record_key := "www", record_type := "A",
          record_values := ["192.0.2.1"], time_to_live := 3600 } =
       some { rrsets := [{ name := conditionally_qualify_key "www" "example.com",
                           type_id := RrsetType.A, ttl := some 3600,
                           changetype := some Changetype.Replace,
                           records := [{ content := "192.0.2.1", disabled := false }],
                           comments := [] }] } ∧
     [{ name := conditionally_qualify_key "www" "example.com",
        type_id := RrsetType.A, ttl := some 3600,
        changetype := some Changetype.Replace,
        records := [{ content := "192.0.2.1", disabled := false }],
        comments := [] : Rrset }].map Rrset.name = [conditionally_qualify_key "www" "example.com"]) :=
  ⟨⟨by decide, (conditionally_qualify_key_spec.1 "www" "example.com").2 (by decide)⟩,
   ⟨by decide,
    conditionally_qualify_key_spec.2.2.2.1
      { zone_name := "example.com", record_key := "www", record_type := "A",
        record_values := ["192.0.2.1"], time_to_live := 3600 }
      _ (by decide)⟩⟩

/-- C9: SOA record content follows the format
`"<zone>. <account>.<zone>. <YYYYMMDD>01 <refresh> <retry> <expire> <neg_caching>"`
(the canonicalized zone name in both name slots), and for the worked
example (`zone=example.com`, `account=root`, `refresh=3600`,
`retry=1800`, `expire=604800`, `neg_caching=600`) the content is the
prefix `"example.com. root.example.com. "` followed by the 8-digit date
stamp followed by `"01 3600 1800 604800 600"`. -/
theorem soa_content_format :
    (∀ (serial : String) (request : CreateZoneRequestEvent),
       soa_record_content serial request =
         canonicalize_name request.zone_name ++ " " ++ request.account ++ "." ++
         canonicalize_name request.zone_name ++ " " ++ serial ++ "01 " ++
         toString request.refresh ++ " " ++ toString request.retry ++ " " ++
         toString request.expire ++ " " ++ toString request.neg_caching) ∧
    (∀ serial : String,
       serial.data.length = 8 → (∀ c ∈ serial.data, c.isDigit) →
       soa_record_content serial
         { zone_name := "example.com", refresh := 3600, retry := 1800,
           expire := 604800, neg_caching := 600, masters := [],
           nameservers := ["ns1.example.com"], account := "root" } =
         "example.com. root.example.com. " ++ serial ++ "01 3600 1800 604800 600") := by
  refine ⟨fun serial request => rfl, fun serial _h8 _hdig => ?_⟩
  apply string_data_inj
  simp [soa_record_content, canonicalize_name, ends_with_dot, string_data_append]
  decide

/-- Witness for C9 at the concrete date stamp `20211005`. -/
theorem soa_content_format_witness :
    ("20211005" : String).data.length = 8 ∧
    soa_record_content "20211005"
      { zone_name := "example.com", refresh := 3600, retry := 1800,
        expire := 604800, neg_caching := 600, masters := [],
        nameservers := ["ns1.example.com"], account := "root" } =
      "example.com. root.example.com. 2021100501 3600 1800 604800 600" :=
  ⟨by decide,
   (soa_content_format.2 "20211005" (by decide) (by decide)).trans (by decide)⟩

/-- C10: the `NewZone` payload transmitted for a CreateZone request:
with an empty nameserver list the zone is a `Slave` with empty rrsets
(the SOA-seeded rrset is discarded) and the canonicalized masters; with
a non-empty nameserver list it is `Native` with empty masters, the
SOA-seeded rrsets and the canonicalized nameservers; in both cases the
name is canonicalized and dnssec, nsec3narrow and presigned are false. -/
theorem create_zone_payload_shape (serial : String) (request : CreateZoneRequestEvent) :
    (request.nameservers = [] →
       create_zone_body_provider serial request =
         { name := canonicalize_name request.zone_name
           type_id := StructType.Zone
           kind := ZoneKind.Slave
           rrsets := []
           masters := request.masters.map canonicalize_name
           dnssec := false
           nsec3param := none
           nsec3narrow := false
           presigned := false
           nameservers := []
           master_tsig_key_ids := none
           slave_tsig_key_ids := none }) ∧
    (request.nameservers ≠ [] →
       create_zone_body_provider serial request =
         { name := canonicalize_name request.zone_name
           type_id := StructType.Zone
           kind := ZoneKind.Native
           rrsets := [{ name := canonicalize_name request.zone_name
                        type_id := RrsetType.Soa
                        ttl := some request.refresh
                        changetype := none
                        records := [{ content := soa_record_content serial request,
                                      disabled := false }]
                        comments := [] }]
           masters := []
           dnssec := false
           nsec3param := none
           nsec3narrow := false
           presigned := false
           nameservers := request.nameservers.map canonicalize_name
           master_tsig_key_ids := none
           slave_tsig_key_ids := none }) := by
  constructor
  · intro h
    simp [create_zone_body_provider, NewZone.new, h]
  · intro h
    have hne : (request.nameservers.map canonicalize_name).isEmpty = false := by
      cases hn : request.nameservers with
      | nil => exact absurd hn h
      | cons a l => simp [hn]
    simp [create_zone_body_provider, NewZone.new, hne]

/-- Witness for C10: both branches at concrete requests (one with no
nameservers, one with a nameserver). -/
theorem create_zone_payload_shape_witness :
    (({ zone_name := "example.com", refresh := 3600, retry := 1800,
        expire := 604800, neg_caching := 600, masters := ["203.0.113.1"],
        nameservers := [], account := "root" } : CreateZoneRequestEvent).nameservers = [] ∧
     create_zone_body_provider "20211005"
       { zone_name := "example.com", refresh := 3600, retry := 1800,
         expire := 604800, neg_caching := 600, masters := ["203.0.113.1"],
         nameservers := [], account := "root" } =
       { name := canonicalize_name "example.com"
         type_id := StructType.Zone
         kind := ZoneKind.Slave
         rrsets := []
         masters := ["203.0.113.1"].map canonicalize_name
         dnssec := false
         nsec3param := none
         nsec3narrow := false
         presigned := false
         nameservers := []
         master_tsig_key_ids := none
         slave_tsig_key_ids := none }) ∧
    (({ zone_name := "example.com", refresh := 3600, retry := 1800,
        expire := 604800, neg_caching := 600, masters := [],
        nameservers := ["ns1.example.com"], account := "root" } : CreateZoneRequestEvent).nameservers ≠ [] ∧
     create_zone_body_provider "20211005"
       { zone_name := "example.com", refresh := 3600, retry := 1800,
         expire := 604800, neg_caching := 600, masters := [],
         nameservers := ["ns1.example.com"], account := "root" } =
       { name := canonicalize_name "example.com"
         type_id := StructType.Zone
         kind := ZoneKind.Native
         rrsets := [{ name := canonicalize_name "example.com"
                      type_id := RrsetType.Soa
                      ttl := some 3600
                      changetype := none
                      records := [{ content := soa_record_content "20211005"
                                      { zone_name := "example.com", refresh := 3600,
                                        retry := 1800, expire := 604800,
                                        neg_caching := 600, masters := [],
                                        nameservers := ["ns1.example.com"],
                                        account := "root" },
                                    disabled := false }]
                      comments := [] }]
         masters := []
         dnssec := false
         nsec3param := none
         nsec3narrow := false
         presigned := false
         nameservers := ["ns1.example.com"].map canonicalize_name
         master_tsig_key_ids := none
         slave_tsig_key_ids := none }) :=
  ⟨⟨rfl, (create_zone_payload_shape "20211005" _).1 rfl⟩,
   ⟨by decide, (create_zone_payload_shape "20211005" _).2 (by decide)⟩⟩

/-- C1: the generic engine classifies every HTTP outcome uniformly
across the four verbs: a status in `{200, 201, 204}` is a success (GET
and POST decode the body as the payload, DELETE and PATCH succeed with
unit); a status in `{400, 404, 422, 500}` yields a Domain error with
that status code and the decoded server-error DTO; any other status
yields `Client{status_code}` for every decoder, i.e. without consulting
the body; and a failure to send or to decode yields a Transport
(`ReqwestRuntimeError`) error. -/
theorem engine_uniform_classification {O T : Type}
    (decode_payload : String → Except String O)
    (decode_server_error : String → Except String PdnsError) (payload : T) :
    (∀ message : String,
       handle_get_request decode_payload decode_server_error (HttpResult.failure message)
         = Except.error (RestClientErrorKind.ReqwestRuntimeError message) ∧
       handle_post_request decode_payload decode_server_error payload (HttpResult.failure message)
         = Except.error (RestClientErrorKind.ReqwestRuntimeError message) ∧
       handle_delete_request decode_server_error (HttpResult.failure message)
         = Except.error (RestClientErrorKind.ReqwestRuntimeError message) ∧
       handle_patch_request decode_server_error payload (HttpResult.failure message)
         = Except.error (RestClientErrorKind.ReqwestRuntimeError message)) ∧
    (∀ (status : Nat) (body : String) (o : O),
       (status = 200 ∨ status = 201 ∨ status = 204) →
       decode_payload body = Except.ok o →
       handle_get_request decode_payload decode_server_error (HttpResult.response status body)
         = Except.ok o ∧
       handle_post_request decode_payload decode_server_error payload (HttpResult.response status body)
         = Except.ok o ∧
       handle_delete_request decode_server_error (HttpResult.response status body)
         = Except.ok () ∧
       handle_patch_request decode_server_error payload (HttpResult.response status body)
         = Except.ok ()) ∧
    (∀ (status : Nat) (body message : String),
       (status = 200 ∨ status = 201 ∨ status = 204) →
       decode_payload body = Except.error message →
       handle_get_request decode_payload decode_server_error (HttpResult.response status body)
         = Except.error (RestClientErrorKind.ReqwestRuntimeError message) ∧
       handle_post_request decode_payload decode_server_error payload (HttpResult.response status body)
         = Except.error (RestClientErrorKind.ReqwestRuntimeError message)) ∧
    (∀ (status : Nat) (body : String) (server_error : PdnsError),
       (status = 400 ∨ status = 404 ∨ status = 422 ∨ status = 500) →
       decode_server_error body = Except.ok server_error →
       handle_get_request decode_payload decode_server_error (HttpResult.response status body)
         = Except.error (RestClientErrorKind.PowerDnsServerError status server_error) ∧
       handle_post_request decode_payload decode_server_error payload (HttpResult.response status body)
         = Except.error (RestClientErrorKind.PowerDnsServerError status server_error) ∧
       handle_delete_request decode_server_error (HttpResult.response status body)
         = Except.error (RestClientErrorKind.PowerDnsServerError status server_error) ∧
       handle_patch_request decode_server_error payload (HttpResult.response status body)
         = Except.error (RestClientErrorKind.PowerDnsServerError status server_error)) ∧
    (∀ (status : Nat) (body message : String),
       (status = 400 ∨ status = 404 ∨ status = 422 ∨ status = 500) →
       decode_server_error body = Except.error message →
       handle_get_request decode_payload decode_server_error (HttpResult.response status body)
         = Except.error (RestClientErrorKind.ReqwestRuntimeError message) ∧
       handle_post_request decode_payload decode_server_error payload (HttpResult.response status body)
         = Except.error (RestClientErrorKind.ReqwestRuntimeError message) ∧
       handle_delete_request decode_server_error (HttpResult.response status body)
         = Except.error (RestClientErrorKind.ReqwestRuntimeError message) ∧
       handle_patch_request decode_server_error payload (HttpResult.response status body)
         = Except.error (RestClientErrorKind.ReqwestRuntimeError message)) ∧
    (∀ (status : Nat) (body : String),
       status ≠ 200 → status ≠ 201 → status ≠ 204 →
       status ≠ 400 → status ≠ 404 → status ≠ 422 → status ≠ 500 →
       handle_get_request decode_payload decode_server_error (HttpResult.response status body)
         = Except.error (RestClientErrorKind.ClientError status) ∧
       handle_post_request decode_payload decode_server_error payload (HttpResult.response status body)
         = Except.error (RestClientErrorKind.ClientError status) ∧
       handle_delete_request decode_server_error (HttpResult.response status body)
         = Except.error (RestClientErrorKind.ClientError status) ∧
       handle_patch_request decode_server_error payload (HttpResult.response status body)
         = Except.error (RestClientErrorKind.ClientError status)) := by
  refine ⟨fun message => ⟨rfl, rfl, rfl, rfl⟩, ?_, ?_, ?_, ?_, ?_⟩
  · rintro status body o (rfl | rfl | rfl) hdec <;>
      exact ⟨by simp [handle_get_request, is_success, hdec],
             by simp [handle_post_request, is_success, hdec],
             by simp [handle_delete_request, is_success],
             by simp [handle_patch_request, is_success]⟩
  · rintro status body message (rfl | rfl | rfl) hdec <;>
      exact ⟨by simp [handle_get_request, is_success, hdec],
             by simp [handle_post_request, is_success, hdec]⟩
  · rintro status body server_error (rfl | rfl | rfl | rfl) hdec <;>
      exact ⟨by simp [handle_get_request, is_success, is_known_error, hdec],
             by simp [handle_post_request, is_success, is_known_error, hdec],
             by simp [handle_delete_request, is_success, is_known_error, hdec],
             by simp [handle_patch_request, is_success, is_known_error, hdec]⟩
  · rintro status body message (rfl | rfl | rfl | rfl) hdec <;>
      exact ⟨by simp [handle_get_request, is_success, is_known_error, hdec],
             by simp [handle_post_request, is_success, is_known_error, hdec],
             by simp [handle_delete_request, is_success, is_known_error, hdec],
             by simp [handle_patch_request, is_success, is_known_error, hdec]⟩
  · intro status body h200 h201 h204 h400 h404 h422 h500
    have hs : is_success status = false := by
      simp only [is_success, Bool.or_eq_false_iff, beq_eq_false_iff_ne]
      exact ⟨⟨h200, h201⟩, h204⟩
    have hk : is_known_error status = false := by
      simp only [is_known_error, Bool.or_eq_false_iff, beq_eq_false_iff_ne]
      exact ⟨⟨⟨h400, h404⟩, h422⟩, h500⟩
    exact ⟨by simp [handle_get_request, hs, hk],
           by simp [handle_post_request, hs, hk],
           by simp [handle_delete_request, hs, hk],
           by simp [handle_patch_request, hs, hk]⟩

/-- Witness for C1 at concrete statuses 201 (success with decoded
payload), 404 (Domain error) and 302 (unclassified client error). -/
theorem engine_uniform_classification_witness :
    handle_get_request (fun _ => Except.ok (7 : Nat)) (fun _ => Except.ok pdnsError0)
        (HttpResult.response 201 "body")
      = Except.ok 7 ∧
    handle_patch_request (fun _ => Except.ok pdnsError0) (0 : Nat)
        (HttpResult.response 404 "body")
      = Except.error (RestClientErrorKind.PowerDnsServerError 404 pdnsError0) ∧
    handle_delete_request (fun _ => Except.ok pdnsError0) (HttpResult.response 302 "body")
      = Except.error (RestClientErrorKind.ClientError 302) :=
  ⟨((engine_uniform_classification (fun _ => Except.ok (7 : Nat))
        (fun _ => Except.ok pdnsError0) (0 : Nat)).2.1 201 "body" 7
      (Or.inr (Or.inl rfl)) rfl).1,
   ((engine_uniform_classification (fun _ => Except.ok (7 : Nat))
        (fun _ => Except.ok pdnsError0) (0 : Nat)).2.2.2.1 404 "body" pdnsError0
      (Or.inr (Or.inl rfl)) rfl).2.2.2,
   ((engine_uniform_classification (fun _ => Except.ok (7 : Nat))
        (fun _ => Except.ok pdnsError0) (0 : Nat)).2.2.2.2.2 302 "body"
      (by decide) (by decide) (by decide) (by decide) (by decide) (by decide)
      (by decide)).2.2.1⟩

/-- C6 counterexample: the Server facade's query handler does not follow
the engine taxonomy.  At status 204 (a success per the claim) it returns
`Client{204}` instead of a decoded success, and at status 400 (a Domain
error per the claim) it returns `Client{400}` instead of
`Domain{400, server_error}`, even when both bodies decode. -/
theorem server_query_taxonomy_cex :
    handle_request_event (fun _ => Except.ok server0) (HttpResult.response 204 "body")
      = Except.error (RestClientErrorKind.ClientError 204) ∧
    handle_request_event (fun _ => Except.ok server0) (HttpResult.response 204 "body")
      ≠ Except.ok server0 ∧
    handle_request_event (fun _ => Except.ok server0) (HttpResult.response 400 "body")
      = Except.error (RestClientErrorKind.ClientError 400) ∧
    handle_request_event (fun _ => Except.ok server0) (HttpResult.response 400 "body")
      ≠ Except.error (RestClientErrorKind.PowerDnsServerError 400 pdnsError0) :=
  ⟨rfl, by simp [handle_request_event], rfl, by simp [handle_request_event]⟩

/-- C6 (amended): the Server facade's query handler classifies only
status 200 as success, decoding the body as `Server`; every other
status, recognized-error statuses included, yields `Client{status_code}`
with no server-error decode; and failures to send or decode yield a
Transport (`ReqwestRuntimeError`) error. -/
theorem server_query_classification (decode_server : String → Except String Server) :
    (∀ (body : String) (server : Server),
       decode_server body = Except.ok server →
       handle_request_event decode_server (HttpResult.response 200 body) = Except.ok server) ∧
    (∀ body message : String,
       decode_server body = Except.error message →
       handle_request_event decode_server (HttpResult.response 200 body) =
         Except.error (RestClientErrorKind.ReqwestRuntimeError message)) ∧
    (∀ (status : Nat) (body : String), status ≠ 200 →
       handle_request_event decode_server (HttpResult.response status body) =
         Except.error (RestClientErrorKind.ClientError status)) ∧
    (∀ message : String,
       handle_request_event decode_server (HttpResult.failure message) =
         Except.error (RestClientErrorKind.ReqwestRuntimeError message)) := by
  refine ⟨?_, ?_, ?_, fun message => rfl⟩
  · intro body server hdec
    simp [handle_request_event, hdec]
  · intro body message hdec
    simp [handle_request_event, hdec]
  · intro status body h
    have hs : (status == 200) = false := by
      simpa [beq_eq_false_iff_ne] using h
    simp [handle_request_event, hs]

/-- Witness for C6 (amended) at status 200 with a decoding body and at
status 404. -/
theorem server_query_classification_witness :
    handle_request_event (fun _ => Except.ok server0) (HttpResult.response 200 "body")
      = Except.ok server0 ∧
    handle_request_event (fun _ => Except.ok server0) (HttpResult.response 404 "body")
      = Except.error (RestClientErrorKind.ClientError 404) :=
  ⟨(server_query_classification (fun _ => Except.ok server0)).1 "body" server0 rfl,
   (server_query_classification (fun _ => Except.ok server0)).2.2.1 404 "body" (by decide)⟩

/-- C2 counterexample: when the initial Server.query fails, the AddZone
workflow does not terminate with an Unspecified error — it surfaces the
query's own error unchanged (here `Client{418}`), though still without
issuing any zone-level call. -/
theorem server_gate_failure_cex :
    executeAddZoneCommand { base_uri := "http://h/", api_key := "key", zone_name := "example.com" }
        (ExchangeOutcome.delivered (Except.error (RestClientErrorKind.ClientError 418)))
        ExchangeOutcome.sendFailed ExchangeOutcome.sendFailed
        (CommandParameters.AddZone 3600 1800 604800 600 [] ["ns1.example.com"] "root")
      = (Except.error (RestClientErrorKind.ClientError 418), [FacadeCall.serverQuery]) ∧
    isUnspecifiedError (RestClientErrorKind.ClientError 418) = false :=
  ⟨rfl, rfl⟩

/-- C2 (amended): for the gated zone-mutating workflows (AddZone,
AddEntry, RemoveEntry), a Server.query that returns a server whose
`daemon_type` is not Authoritative terminates the workflow with an
Unspecified error, and a Server.query that fails terminates it with that
failure surfaced unchanged; in both cases the trace contains only the
Server.query, so no zone-level call is issued.  RemoveZone is a stub
that contains no Server.query and issues no facade call for any
parameters. -/
theorem server_gate_behavior
    (server : Server) (e : RestClientErrorKind)
    (cmdA : AddZoneCommand) (cmdE : AddEntryCommand) (cmdR : RemoveEntryCommand)
    (cmdZ : RemoveZoneCommand)
    (zq zq2 zq3 : ExchangeOutcome Zone) (cr : ExchangeOutcome Zone)
    (ae re : ExchangeOutcome Unit)
    (refresh retry expire neg_caching : Nat)
    (masters nameservers : List String) (account : String)
    (record_key record_type : String) (record_value : List String) (ttl : Nat)
    (hrole : server.daemon_type ≠ DaemonType.Authoritative) :
    (executeAddZoneCommand cmdA (ExchangeOutcome.delivered (Except.ok server)) zq cr
        (CommandParameters.AddZone refresh retry expire neg_caching masters nameservers account)
      = (Except.error (RestClientErrorKind.UnspecifiedError none), [FacadeCall.serverQuery])) ∧
    (executeAddEntryCommand cmdE (ExchangeOutcome.delivered (Except.ok server)) zq2 ae
        (CommandParameters.AddEntry record_key record_value record_type ttl)
      = (Except.error (RestClientErrorKind.UnspecifiedError none), [FacadeCall.serverQuery])) ∧
    (executeRemoveEntryCommand cmdR (ExchangeOutcome.delivered (Except.ok server)) zq3 re
        (CommandParameters.RemoveEntry record_key record_type)
      = (Except.error (RestClientErrorKind.UnspecifiedError none), [FacadeCall.serverQuery])) ∧
    (executeAddZoneCommand cmdA (ExchangeOutcome.delivered (Except.error e)) zq cr
        (CommandParameters.AddZone refresh retry expire neg_caching masters nameservers account)
      = (Except.error e, [FacadeCall.serverQuery])) ∧
    (executeAddEntryCommand cmdE (ExchangeOutcome.delivered (Except.error e)) zq2 ae
        (CommandParameters.AddEntry record_key record_value record_type ttl)
      = (Except.error e, [FacadeCall.serverQuery])) ∧
    (executeRemoveEntryCommand cmdR (ExchangeOutcome.delivered (Except.error e)) zq3 re
        (CommandParameters.RemoveEntry record_key record_type)
      = (Except.error e, [FacadeCall.serverQuery])) ∧
    [FacadeCall.serverQuery].any isZoneLevelCall = false ∧
    (∀ params : CommandParameters, (executeRemoveZoneCommand cmdZ params).2 = []) := by
  refine ⟨?_, ?_, ?_, rfl, rfl, rfl, rfl, ?_⟩
  · simp [executeAddZoneCommand, hrole]
  · simp [executeAddEntryCommand, hrole]
  · simp [executeRemoveEntryCommand, hrole]
  · intro params
    cases params <;> rfl

/-- Witness for C2 (amended) at a concrete Recursor server and a
concrete Transport error. -/
theorem server_gate_behavior_witness :
    recursor0.daemon_type ≠ DaemonType.Authoritative ∧
    executeAddZoneCommand { base_uri := "http://h/", api_key := "key", zone_name := "example.com" }
        (ExchangeOutcome.delivered (Except.ok recursor0))
        ExchangeOutcome.sendFailed ExchangeOutcome.sendFailed
        (CommandParameters.AddZone 3600 1800 604800 600 [] ["ns1.example.com"] "root")
      = (Except.error (RestClientErrorKind.UnspecifiedError none), [FacadeCall.serverQuery]) ∧
    executeRemoveEntryCommand { base_uri := "http://h/", api_key := "key", zone_name := "example.com" }
        (ExchangeOutcome.delivered (Except.error (RestClientErrorKind.ReqwestRuntimeError "connection refused")))
        ExchangeOutcome.sendFailed ExchangeOutcome.sendFailed
        (CommandParameters.RemoveEntry "www" "A")
      = (Except.error (RestClientErrorKind.ReqwestRuntimeError "connection refused"),
         [FacadeCall.serverQuery]) :=
  ⟨by decide,
   (server_gate_behavior recursor0 (RestClientErrorKind.ReqwestRuntimeError "connection refused")
      { base_uri := "http://h/", api_key := "key", zone_name := "example.com" }
      { base_uri := "http://h/", api_key := "key", zone_name := "example.com" }
      { base_uri := "http://h/", api_key := "key", zone_name := "example.com" }
      { base_uri := "http://h/", api_key := "key", zone_name := "example.com" }
      ExchangeOutcome.sendFailed ExchangeOutcome.sendFailed ExchangeOutcome.sendFailed
      ExchangeOutcome.sendFailed ExchangeOutcome.sendFailed ExchangeOutcome.sendFailed
      3600 1800 604800 600 [] ["ns1.example.com"] "root"
      "www" "A" [] 0 (by decide)).1,
   (server_gate_behavior recursor0 (RestClientErrorKind.ReqwestRuntimeError "connection refused")
      { base_uri := "http://h/", api_key := "key", zone_name := "example.com" }
      { base_uri := "http://h/", api_key := "key", zone_name := "example.com" }
      { base_uri := "http://h/", api_key := "key", zone_name := "example.com" }
      { base_uri := "http://h/", api_key := "key", zone_name := "example.com" }
      ExchangeOutcome.sendFailed ExchangeOutcome.sendFailed ExchangeOutcome.sendFailed
      ExchangeOutcome.sendFailed ExchangeOutcome.sendFailed ExchangeOutcome.sendFailed
      3600 1800 604800 600 [] ["ns1.example.com"] "root"
      "www" "A" [] 0 (by decide)).2.2.2.2.2.1⟩

/-- C4: the remove-zone workflow in the source is an inert stub.  At the
parameters command dispatch actually passes
(`CommandParameters::RemoveZone {}`) it returns an Unspecified error and
starts no facade operation — in particular no DELETE of
`servers/localhost/zones/{zone}` — and at `QueryZone` parameters it
returns success, again with no facade operation. -/
theorem remove_zone_stub_eval :
    executeRemoveZoneCommand
        { base_uri := "http://h/", api_key := "key", zone_name := "example.com" }
        CommandParameters.RemoveZone
      = (Except.error (RestClientErrorKind.UnspecifiedError none), []) ∧
    executeRemoveZoneCommand
        { base_uri := "http://h/", api_key := "key", zone_name := "example.com" }
        (CommandParameters.QueryZone none)
      = (Except.ok (), []) :=
  ⟨rfl, rfl⟩

/-- C5: when the AddZone zone-existence check succeeds, the workflow
terminates successfully as a no-op, the trace is exactly
`[Server.query, Zone.query]`, and no Zone.create call appears even
across a repetition of the run. -/
theorem add_zone_existing_zone_noop
    (cmd : AddZoneCommand) (server : Server) (zone : Zone)
    (cr : ExchangeOutcome Zone)
    (refresh retry expire neg_caching : Nat)
    (masters nameservers : List String) (account : String)
    (hrole : server.daemon_type = DaemonType.Authoritative) :
    executeAddZoneCommand cmd (ExchangeOutcome.delivered (Except.ok server))
        (ExchangeOutcome.delivered (Except.ok zone)) cr
        (CommandParameters.AddZone refresh retry expire neg_caching masters nameservers account)
      = (Except.ok (), [FacadeCall.serverQuery, FacadeCall.zoneQuery cmd.zone_name]) ∧
    ([FacadeCall.serverQuery, FacadeCall.zoneQuery cmd.zone_name] ++
     [FacadeCall.serverQuery, FacadeCall.zoneQuery cmd.zone_name]).filter isCreateCall = [] := by
  constructor
  · simp [executeAddZoneCommand, addZone_execute_get_zone, hrole]
  · rfl

/-- Witness for C5 at a concrete Authoritative server and zone. -/
theorem add_zone_existing_zone_noop_witness :
    server0.daemon_type = DaemonType.Authoritative ∧
    executeAddZoneCommand { base_uri := "http://h/", api_key := "key", zone_name := "example.com" }
        (ExchangeOutcome.delivered (Except.ok server0))
        (ExchangeOutcome.delivered (Except.ok zone0)) ExchangeOutcome.sendFailed
        (CommandParameters.AddZone 3600 1800 604800 600 [] ["ns1.example.com"] "root")
      = (Except.ok (), [FacadeCall.serverQuery, FacadeCall.zoneQuery "example.com"]) :=
  ⟨by decide,
   (add_zone_existing_zone_noop
      { base_uri := "http://h/", api_key := "key", zone_name := "example.com" }
      server0 zone0 ExchangeOutcome.sendFailed
      3600 1800 604800 600 [] ["ns1.example.com"] "root" (by decide)).1⟩

/-- C3 counterexample: a successful Zone.query does not always lead to
the add-entry call.  With a zone that already contains an rrset named
exactly like the record key, the workflow fails with
`Unspecified("Record already exists: <key>")` and the trace stops at the
Zone.query — no add-entry PATCH is started. -/
theorem add_entry_existing_record_cex :
    executeAddEntryCommand { base_uri := "http://h/", api_key := "key", zone_name := "example.com" }
        (ExchangeOutcome.delivered (Except.ok server0))
        (ExchangeOutcome.delivered (Except.ok zone0))
        (ExchangeOutcome.delivered (Except.ok ()))
        (CommandParameters.AddEntry "www.example.com." ["192.0.2.2"] "A" 3600)
      = (Except.error (RestClientErrorKind.UnspecifiedError
            (some "Record already exists: www.example.com.")),
         [FacadeCall.serverQuery, FacadeCall.zoneQuery "example.com"]) ∧
    [FacadeCall.serverQuery, FacadeCall.zoneQuery "example.com"].any
        (fun c => c == FacadeCall.addEntry "example.com") = false :=
  ⟨rfl, rfl⟩

/-- C3 (amended): in the AddEntry workflow, after the server-role gate,
Zone.query is issued; if it succeeds and no rrset of the returned zone
is named exactly like the (unqualified) record key, exactly one
add-entry call is issued and its result surfaced; if it succeeds and
such an rrset exists, the workflow fails with
`Unspecified("Record already exists: <key>")` without a further call;
`Domain{404,_}` terminates successfully as a no-op with no further
calls; any other error is surfaced unchanged. -/
theorem add_entry_workflow_behavior
    (cmd : AddEntryCommand) (server : Server) (zone : Zone)
    (record_key record_type : String) (record_value : List String) (ttl : Nat)
    (r : Except RestClientErrorKind Unit) (e : RestClientErrorKind)
    (server_error : PdnsError)
    (ae : ExchangeOutcome Unit)
    (hrole : server.daemon_type = DaemonType.Authoritative) :
    (zone.rrsets.any (fun rrset => rrset.name == record_key) = false →
       executeAddEntryCommand cmd (ExchangeOutcome.delivered (Except.ok server))
           (ExchangeOutcome.delivered (Except.ok zone)) (ExchangeOutcome.delivered r)
           (CommandParameters.AddEntry record_key record_value record_type ttl)
         = (r, [FacadeCall.serverQuery, FacadeCall.zoneQuery cmd.zone_name,
                FacadeCall.addEntry cmd.zone_name])) ∧
    (zone.rrsets.any (fun rrset => rrset.name == record_key) = true →
       executeAddEntryCommand cmd (ExchangeOutcome.delivered (Except.ok server))
           (ExchangeOutcome.delivered (Except.ok zone)) ae
           (CommandParameters.AddEntry record_key record_value record_type ttl)
         = (Except.error (RestClientErrorKind.UnspecifiedError
              (some ("Record already exists: " ++ record_key))),
            [FacadeCall.serverQuery, FacadeCall.zoneQuery cmd.zone_name])) ∧
    (executeAddEntryCommand cmd (ExchangeOutcome.delivered (Except.ok server))
         (ExchangeOutcome.delivered (Except.error
            (RestClientErrorKind.PowerDnsServerError 404 server_error))) ae
         (CommandParameters.AddEntry record_key record_value record_type ttl)
       = (Except.ok (), [FacadeCall.serverQuery, FacadeCall.zoneQuery cmd.zone_name])) ∧
    (isNotFoundDomainError e = false →
       executeAddEntryCommand cmd (ExchangeOutcome.delivered (Except.ok server))
           (ExchangeOutcome.delivered (Except.error e)) ae
           (CommandParameters.AddEntry record_key record_value record_type ttl)
         = (Except.error e, [FacadeCall.serverQuery, FacadeCall.zoneQuery cmd.zone_name])) := by
  refine ⟨?_, ?_, ?_, ?_⟩
  · intro hfound
    cases r with
    | ok u =>
        cases u
        simp [executeAddEntryCommand, addEntry_execute_get_zone,
              addEntry_execute_add_entry, hrole, hfound]
    | error err =>
        simp [executeAddEntryCommand, addEntry_execute_get_zone,
              addEntry_execute_add_entry, hrole, hfound]
  · intro hfound
    simp [executeAddEntryCommand, addEntry_execute_get_zone, hrole, hfound]
  · simp [executeAddEntryCommand, addEntry_execute_get_zone, hrole]
  · intro hnf
    cases e with
    | PowerDnsServerError status_code server_error2 =>
        have : (status_code == 404) = false := by simpa [isNotFoundDomainError] using hnf
        have hne : status_code ≠ 404 := by simpa [beq_eq_false_iff_ne] using this
        simp [executeAddEntryCommand, addEntry_execute_get_zone, hrole, hne]
    | UnspecifiedError m =>
        simp [executeAddEntryCommand, addEntry_execute_get_zone, hrole]
    | TokioRuntimeError m =>
        simp [executeAddEntryCommand, addEntry_execute_get_zone, hrole]
    | ReqwestRuntimeError m =>
        simp [executeAddEntryCommand, addEntry_execute_get_zone, hrole]
    | ClientError sc =>
        simp [executeAddEntryCommand, addEntry_execute_get_zone, hrole]

/-- Witness for C3 (amended) at a concrete zone without the record key
and a delivered add-entry success. -/
theorem add_entry_workflow_behavior_witness :
    zone0.rrsets.any (fun rrset => rrset.name == "mail.example.com.") = false ∧
    executeAddEntryCommand { base_uri := "http://h/", api_key := "key", zone_name := "example.com" }
        (ExchangeOutcome.delivered (Except.ok server0))
        (ExchangeOutcome.delivered (Except.ok zone0))
        (ExchangeOutcome.delivered (Except.ok ()))
        (CommandParameters.AddEntry "mail.example.com." ["192.0.2.3"] "A" 3600)
      = (Except.ok (), [FacadeCall.serverQuery, FacadeCall.zoneQuery "example.com",
                        FacadeCall.addEntry "example.com"]) :=
  ⟨by decide,
   (add_entry_workflow_behavior
      { base_uri := "http://h/", api_key := "key", zone_name := "example.com" }
      server0 zone0 "mail.example.com." "A" ["192.0.2.3"] 3600
      (Except.ok ()) (RestClientErrorKind.UnspecifiedError none) pdnsError0
      (ExchangeOutcome.delivered (Except.ok ())) (by decide)).1 (by decide)⟩

end PdnsCli
